import Mathlib

/-!
Verification of `src/downloader/headers/downloader_forky.rs` (the "forky"
header-download phase of the akula sync pipeline).

The file embeds the `DownloaderForky::run` orchestrator shallowly:

* `u64` arithmetic becomes `Nat` arithmetic reduced modulo `2 ^ 64` where the
  Rust operators can wrap;
* the shared `HeaderSlices` window (whose source file is not part of the
  sample) is modelled from the specification as a list of slice statuses plus
  a low boundary, mutated through the transition operations the spec lists;
* the merged stage stream of the orchestrator's `while let` loop becomes a
  finite list of `RunEvent`s, each carrying the stage key, whether the stage's
  per-iteration outcome was an error, the window mutations the stages
  performed before the event was observed, and the value of the
  `can_proceed` connectivity predicate at that point;
* side effects that matter to the claims (window construction, UI view
  registration, stage construction, error logging, watcher notification) are
  returned as an explicit effect list.
-/

namespace Akula

/-- Modulus of 64-bit machine words (`u64`). -/
def U64_MOD : Nat := 2 ^ 64

/-- Wrapping 64-bit addition, as Rust `u64` addition compiles in release mode. -/
def u64add (a b : Nat) : Nat := (a + b) % U64_MOD

/-- Wrapping 64-bit subtraction, as Rust `u64` subtraction compiles in release
mode (for representable inputs `b ≤ a` it is plain subtraction). -/
def u64sub (a b : Nat) : Nat := (a + U64_MOD - b % U64_MOD) % U64_MOD

/-- `sentry::messages::BlockHashAndNumber`: a block number (`u64`, modelled as
`Nat`) paired with its 32-byte content hash (modelled as `Nat`). -/
structure BlockHashAndNumber where
  number : Nat
  hash : Nat
deriving Repr, DecidableEq

/-- Modelled from the spec: `header_slices::HEADER_SLICE_SIZE` is not in the
sample; the spec fixes a slice as a span of consecutive block numbers and its
§8 scenario uses slice size 64. -/
def HEADER_SLICE_SIZE : Nat := 64

/-- Modelled from the spec: `header_slices::align_block_num_to_slice_start` is
not in the sample; per the spec the window construction aligns
`final_block_num` to the nearest slice boundary, and the name says the slice
start, i.e. rounding down to a multiple of `HEADER_SLICE_SIZE`. -/
def align_block_num_to_slice_start (num : Nat) : Nat :=
  num / HEADER_SLICE_SIZE * HEADER_SLICE_SIZE

/-- Status of a header slice; the spec's linear lifecycle
`Empty → Requested → Fetched → (Verified | Invalid) → Saved`. -/
inductive SliceStatus where
  | empty
  | requested
  | fetched
  | verified
  | invalid
  | saved
deriving Repr, DecidableEq, BEq

/-- Modelled from the spec: the `HeaderSlices` window (its source file is not
in the sample). It owns an ordered sequence of slices covering
`[lowBlockNum, lowBlockNum + sliceSize * statuses.length)`; only the slice
statuses and boundaries matter to the claims, so header contents are elided. -/
structure HeaderSlices where
  memLimit : Nat
  sliceSize : Nat
  lowBlockNum : Nat
  statuses : List SliceStatus
deriving Repr, DecidableEq

/-- Modelled from the spec: `HeaderSlices::new(mem_limit, start, final)`
creates the window spanning `[start, final)` with all slices `Empty`; the spec
notes the memory limit chosen by the forky downloader does not affect the
window size. -/
def HeaderSlices.new (mem_limit start_block_num final_block_num : Nat) : HeaderSlices :=
  { memLimit := mem_limit
    sliceSize := HEADER_SLICE_SIZE
    lowBlockNum := start_block_num
    statuses := List.replicate ((final_block_num - start_block_num) / HEADER_SLICE_SIZE)
      SliceStatus.empty }

/-- Modelled from the spec: `min_block_num()` is the window's current low
boundary, the lowest block number not yet saved. -/
def HeaderSlices.min_block_num (w : HeaderSlices) : Nat := w.lowBlockNum

/-- The window's exclusive upper boundary, derived from the low boundary and
the slice count. -/
def HeaderSlices.final_block_num (w : HeaderSlices) : Nat :=
  w.lowBlockNum + w.sliceSize * w.statuses.length

/-- Modelled from the spec: `is_empty_at_final_position()` is true when the
slice at the window's upper edge has not yet received any data (or the window
has no slices left). -/
def HeaderSlices.is_empty_at_final_position (w : HeaderSlices) : Bool :=
  match w.statuses.getLast? with
  | some s => s == SliceStatus.empty
  | none => true

/-- Modelled from the spec: the window transition operations through which the
seven stages mutate slices (§4.1). `mark_saved_and_advance k` is the Save
Stage's combined step: mark the first `k` slices (all `Verified`) as `Saved`,
drop them and advance the low boundary past them. -/
inductive WindowOp where
  | try_claim_for_request (i : Nat)
  | mark_fetched (i : Nat)
  | mark_verified (i : Nat)
  | mark_invalid (i : Nat)
  | reset_to_empty (i : Nat)
  | mark_saved_and_advance (k : Nat)
deriving Repr, DecidableEq

/-- Guarded single-slice status transition: set slice `i` to `toS` if it
currently has status `fromS`, otherwise leave the window unchanged. -/
def HeaderSlices.setAt (w : HeaderSlices) (i : Nat) (fromS toS : SliceStatus) : HeaderSlices :=
  match w.statuses.get? i with
  | some s => if s = fromS then { w with statuses := w.statuses.set i toS } else w
  | none => w

/-- Modelled from the spec: apply one window transition operation. Retry resets
`Requested` slices and Penalize resets `Invalid` slices, both back to `Empty`;
the Save Stage only advances past a contiguously `Verified` leading run. -/
def HeaderSlices.applyOp (w : HeaderSlices) : WindowOp → HeaderSlices
  | WindowOp.try_claim_for_request i => w.setAt i SliceStatus.empty SliceStatus.requested
  | WindowOp.mark_fetched i => w.setAt i SliceStatus.requested SliceStatus.fetched
  | WindowOp.mark_verified i => w.setAt i SliceStatus.fetched SliceStatus.verified
  | WindowOp.mark_invalid i => w.setAt i SliceStatus.fetched SliceStatus.invalid
  | WindowOp.reset_to_empty i =>
      (w.setAt i SliceStatus.requested SliceStatus.empty).setAt i
        SliceStatus.invalid SliceStatus.empty
  | WindowOp.mark_saved_and_advance k =>
      if k ≤ w.statuses.length ∧ (w.statuses.take k).all (· == SliceStatus.verified) then
        { w with lowBlockNum := w.lowBlockNum + k * w.sliceSize
                 statuses := w.statuses.drop k }
      else w

/-- Apply a batch of window transition operations in order. -/
def HeaderSlices.applyOps (w : HeaderSlices) (ops : List WindowOp) : HeaderSlices :=
  ops.foldl HeaderSlices.applyOp w

/-- One item of the orchestrator's merged stage stream: the stage key, whether
its per-iteration outcome `result.is_err()`, the window mutations performed by
the stages since the previous event, and the `can_proceed()` connectivity
check's value at this point. -/
structure RunEvent where
  key : String
  resultIsErr : Bool
  ops : List WindowOp
  canProceed : Bool
deriving Repr, DecidableEq

/-- Why the orchestrator's event loop stopped. -/
inductive StopReason where
  | stageError (key : String)
  | cannotProceed
  | emptyAtFinalPosition
  | streamEnded
deriving Repr, DecidableEq

/-- Outcome of the event loop: the final window, the stop reason, how many
stream events were consumed, and how many times `notify_status_watchers` ran. -/
structure LoopResult where
  window : HeaderSlices
  reason : StopReason
  consumed : Nat
  notifies : Nat
deriving Repr, DecidableEq

/-- The `while let Some((key, result)) = stream.next().await` loop of
`DownloaderForky::run` (lines 129–143): on a stage error, log and break; then
break if `can_proceed()` is false; then break if the window is empty at its
final position; otherwise notify the status watchers and continue. -/
def runLoop (w : HeaderSlices) : List RunEvent → LoopResult
  | [] => { window := w, reason := StopReason.streamEnded, consumed := 0, notifies := 0 }
  | e :: rest =>
    let w1 := w.applyOps e.ops
    if e.resultIsErr then
      { window := w1, reason := StopReason.stageError e.key, consumed := 1, notifies := 0 }
    else if !e.canProceed then
      { window := w1, reason := StopReason.cannotProceed, consumed := 1, notifies := 0 }
    else if w1.is_empty_at_final_position then
      { window := w1, reason := StopReason.emptyAtFinalPosition, consumed := 1, notifies := 0 }
    else
      let r := runLoop w1 rest
      { window := r.window, reason := r.reason, consumed := r.consumed + 1,
        notifies := r.notifies + 1 }

/-- `DownloaderForkyReport { loaded_count, final_block_num }`. -/
structure DownloaderForkyReport where
  loaded_count : Nat
  final_block_num : Nat
deriving Repr, DecidableEq

/-- `let forky_max_blocks_count: usize = 99_000;` (line 56). -/
def forky_max_blocks_count : Nat := 99000

/-- `let mem_limit = byte_unit::n_gib_bytes!(1) as usize;` (line 67). -/
def mem_limit : Nat := 1073741824

/-- Observable side effects of a run that the claims talk about. -/
inductive Effect where
  | windowCreated (start_block_num final_block_num : Nat)
  | uiViewRegistered (name : String)
  | stageCreated (name : String)
  | loggedStageError (key : String)
  | notifiedWatchers (count : Nat)
deriving Repr, DecidableEq

/-- The report constructed at lines 145–148: `loaded_count` is the `u64`
difference `min_block_num - start_block_num` (cast to `usize`) and
`final_block_num` is the window's `min_block_num`. -/
def mkReport (w : HeaderSlices) (start_block_num : Nat) : DownloaderForkyReport :=
  { loaded_count := u64sub w.min_block_num start_block_num
    final_block_num := w.min_block_num }

/-- The seven stage keys inserted into the `StreamMap` (lines 114–127). -/
def stageNames : List String :=
  ["fetch_request_stage", "fetch_receive_stage", "retry_stage", "verify_stage",
   "verify_link_stage", "penalize_stage", "save_stage"]

/-- `DownloaderForky::run` (lines 42–151): below the phase minimum the run is a
no-op returning a zero report before anything is constructed; otherwise the
window spanning `[start_block_num, align(start_block_num + 99000))` is built,
the UI view and the seven stages are created, the event loop runs, and the
function returns `Ok` with the report built from the final window. The
function body has no `?` operator, so it never produces an `Err`. -/
def DownloaderForky.run (start_block_id : BlockHashAndNumber) (max_blocks_count : Nat)
    (events : List RunEvent) : Except String DownloaderForkyReport × List Effect :=
  let start_block_num := start_block_id.number
  if max_blocks_count < forky_max_blocks_count then
    (Except.ok { loaded_count := 0, final_block_num := start_block_num }, [])
  else
    let final_block_num :=
      align_block_num_to_slice_start (u64add start_block_num forky_max_blocks_count)
    let header_slices := HeaderSlices.new mem_limit start_block_num final_block_num
    let lr := runLoop header_slices events
    let effects :=
      Effect.windowCreated start_block_num final_block_num ::
      Effect.uiViewRegistered "DownloaderLinear" ::
      stageNames.map Effect.stageCreated ++
      [Effect.notifiedWatchers lr.notifies] ++
      (match lr.reason with
       | StopReason.stageError key => [Effect.loggedStageError key]
       | _ => [])
    (Except.ok (mkReport lr.window start_block_num), effects)

/-- A stage event whose per-iteration outcome is an error (e.g. a persistence
failure reported by the save stage). -/
def c1Event : RunEvent :=
  { key := "save_stage", resultIsErr := true, ops := [], canProceed := true }

/-- A stage event after which the Fetch-Receive connectivity predicate
`can_proceed` is false. -/
def c4Event : RunEvent :=
  { key := "fetch_receive_stage", resultIsErr := false, ops := [], canProceed := false }

/-- A one-slice window whose slice at the final position is still `Empty`. -/
def c5Window : HeaderSlices :=
  { memLimit := 0, sliceSize := 64, lowBlockNum := 1000, statuses := [SliceStatus.empty] }

/-- An ordinary continuing stage event (no error, connectivity fine, no
window mutations). -/
def c5Event : RunEvent :=
  { key := "verify_stage", resultIsErr := false, ops := [], canProceed := true }

/-- The window of the §8 happy-path scenario, spanning `[1000, 1192)` with
slice size 64 — which is three slices of 64 blocks, not two — after every
slice has been verified. -/
def scenarioWindow : HeaderSlices :=
  { memLimit := mem_limit, sliceSize := 64, lowBlockNum := 1000,
    statuses := [SliceStatus.verified, SliceStatus.verified, SliceStatus.verified] }

/-- The final window state the §8 happy-path scenario describes: all slices
saved and dropped, the low boundary at 1192. -/
def scenarioFinalWindow : HeaderSlices :=
  { memLimit := mem_limit, sliceSize := 64, lowBlockNum := 1192, statuses := [] }

/-! ### Helper lemmas about the window and the loop -/

theorem u64sub_eq_sub (a b : Nat) (hb : b ≤ a) (ha : a < U64_MOD) :
    u64sub a b = a - b := by
  unfold u64sub
  rw [Nat.mod_eq_of_lt (lt_of_le_of_lt hb ha)]
  have h1 : a + U64_MOD - b = (a - b) + U64_MOD := by omega
  rw [h1, Nat.add_mod_right, Nat.mod_eq_of_lt (by omega)]

theorem setAt_lowBlockNum (w : HeaderSlices) (i : Nat) (a b : SliceStatus) :
    (w.setAt i a b).lowBlockNum = w.lowBlockNum := by
  unfold HeaderSlices.setAt
  cases w.statuses.get? i with
  | none => rfl
  | some s =>
    simp only
    split <;> rfl

theorem setAt_sliceSize (w : HeaderSlices) (i : Nat) (a b : SliceStatus) :
    (w.setAt i a b).sliceSize = w.sliceSize := by
  unfold HeaderSlices.setAt
  cases w.statuses.get? i with
  | none => rfl
  | some s =>
    simp only
    split <;> rfl

theorem setAt_length (w : HeaderSlices) (i : Nat) (a b : SliceStatus) :
    (w.setAt i a b).statuses.length = w.statuses.length := by
  unfold HeaderSlices.setAt
  cases w.statuses.get? i with
  | none => rfl
  | some s =>
    simp only
    split
    · simp
    · rfl

theorem applyOp_lowBlockNum_ge (w : HeaderSlices) (op : WindowOp) :
    w.lowBlockNum ≤ (w.applyOp op).lowBlockNum := by
  cases op with
  | try_claim_for_request i => rw [HeaderSlices.applyOp, setAt_lowBlockNum]
  | mark_fetched i => rw [HeaderSlices.applyOp, setAt_lowBlockNum]
  | mark_verified i => rw [HeaderSlices.applyOp, setAt_lowBlockNum]
  | mark_invalid i => rw [HeaderSlices.applyOp, setAt_lowBlockNum]
  | reset_to_empty i => rw [HeaderSlices.applyOp, setAt_lowBlockNum, setAt_lowBlockNum]
  | mark_saved_and_advance k =>
    rw [HeaderSlices.applyOp]
    split
    · exact Nat.le_add_right _ _
    · exact le_refl _

theorem applyOp_final_block_num (w : HeaderSlices) (op : WindowOp) :
    (w.applyOp op).final_block_num = w.final_block_num := by
  cases op with
  | try_claim_for_request i =>
    rw [HeaderSlices.applyOp]
    unfold HeaderSlices.final_block_num
    rw [setAt_lowBlockNum, setAt_sliceSize, setAt_length]
  | mark_fetched i =>
    rw [HeaderSlices.applyOp]
    unfold HeaderSlices.final_block_num
    rw [setAt_lowBlockNum, setAt_sliceSize, setAt_length]
  | mark_verified i =>
    rw [HeaderSlices.applyOp]
    unfold HeaderSlices.final_block_num
    rw [setAt_lowBlockNum, setAt_sliceSize, setAt_length]
  | mark_invalid i =>
    rw [HeaderSlices.applyOp]
    unfold HeaderSlices.final_block_num
    rw [setAt_lowBlockNum, setAt_sliceSize, setAt_length]
  | reset_to_empty i =>
    rw [HeaderSlices.applyOp]
    unfold HeaderSlices.final_block_num
    rw [setAt_lowBlockNum, setAt_lowBlockNum, setAt_sliceSize, setAt_sliceSize,
      setAt_length, setAt_length]
  | mark_saved_and_advance k =>
    rw [HeaderSlices.applyOp]
    unfold HeaderSlices.final_block_num
    split
    · rename_i h
      simp only [List.length_drop]
      have hk : k ≤ w.statuses.length := h.1
      have : w.sliceSize * (w.statuses.length - k) + k * w.sliceSize
          = w.sliceSize * w.statuses.length := by
        rw [Nat.mul_comm k w.sliceSize]
        rw [← Nat.mul_add]
        congr 1
        omega
      omega
    · rfl

theorem applyOps_lowBlockNum_ge (w : HeaderSlices) (ops : List WindowOp) :
    w.lowBlockNum ≤ (w.applyOps ops).lowBlockNum := by
  induction ops generalizing w with
  | nil => exact le_refl _
  | cons op rest ih =>
    exact le_trans (applyOp_lowBlockNum_ge w op) (ih (w.applyOp op))

theorem applyOps_final_block_num (w : HeaderSlices) (ops : List WindowOp) :
    (w.applyOps ops).final_block_num = w.final_block_num := by
  induction ops generalizing w with
  | nil => rfl
  | cons op rest ih =>
    rw [HeaderSlices.applyOps, List.foldl_cons]
    rw [show List.foldl HeaderSlices.applyOp (w.applyOp op) rest
        = (w.applyOp op).applyOps rest from rfl]
    rw [ih, applyOp_final_block_num]

theorem lowBlockNum_le_final (w : HeaderSlices) :
    w.lowBlockNum ≤ w.final_block_num :=
  Nat.le_add_right _ _

theorem runLoop_lowBlockNum_ge (w : HeaderSlices) (events : List RunEvent) :
    w.lowBlockNum ≤ (runLoop w events).window.lowBlockNum := by
  induction events generalizing w with
  | nil => exact le_refl _
  | cons e rest ih =>
    rw [runLoop]
    have h1 : w.lowBlockNum ≤ (w.applyOps e.ops).lowBlockNum :=
      applyOps_lowBlockNum_ge w e.ops
    split
    · exact h1
    · split
      · exact h1
      · split
        · exact h1
        · exact le_trans h1 (ih (w.applyOps e.ops))

theorem runLoop_final_block_num (w : HeaderSlices) (events : List RunEvent) :
    (runLoop w events).window.final_block_num = w.final_block_num := by
  induction events generalizing w with
  | nil => rfl
  | cons e rest ih =>
    rw [runLoop]
    have h1 := applyOps_final_block_num w e.ops
    split
    · exact h1
    · split
      · exact h1
      · split
        · exact h1
        · rw [ih (w.applyOps e.ops), h1]

theorem runLoop_stage_error_eq (w : HeaderSlices) (e : RunEvent) (rest : List RunEvent)
    (he : e.resultIsErr = true) :
    runLoop w (e :: rest) =
      { window := w.applyOps e.ops, reason := StopReason.stageError e.key,
        consumed := 1, notifies := 0 } := by
  rw [runLoop]
  simp [he]

theorem runLoop_cannot_proceed_eq (w : HeaderSlices) (e : RunEvent) (rest : List RunEvent)
    (he : e.resultIsErr = false) (hc : e.canProceed = false) :
    runLoop w (e :: rest) =
      { window := w.applyOps e.ops, reason := StopReason.cannotProceed,
        consumed := 1, notifies := 0 } := by
  rw [runLoop]
  simp [he, hc]

theorem runLoop_empty_stop_eq (w : HeaderSlices) (e : RunEvent) (rest : List RunEvent)
    (he : e.resultIsErr = false) (hc : e.canProceed = true)
    (hemp : (w.applyOps e.ops).is_empty_at_final_position = true) :
    runLoop w (e :: rest) =
      { window := w.applyOps e.ops, reason := StopReason.emptyAtFinalPosition,
        consumed := 1, notifies := 0 } := by
  rw [runLoop]
  simp [he, hc, hemp]

theorem run_fst_eq (start_block_id : BlockHashAndNumber) (max_blocks_count : Nat)
    (events : List RunEvent) :
    (DownloaderForky.run start_block_id max_blocks_count events).fst =
      if max_blocks_count < forky_max_blocks_count then
        Except.ok { loaded_count := 0, final_block_num := start_block_id.number }
      else
        Except.ok (mkReport
          (runLoop (HeaderSlices.new mem_limit start_block_id.number
            (align_block_num_to_slice_start
              (u64add start_block_id.number forky_max_blocks_count))) events).window
          start_block_id.number) := by
  unfold DownloaderForky.run
  split
  · rfl
  · rfl

theorem run_always_ok (start_block_id : BlockHashAndNumber) (max_blocks_count : Nat)
    (events : List RunEvent) :
    (DownloaderForky.run start_block_id max_blocks_count events).fst.isOk = true := by
  rw [run_fst_eq]
  split
  · rfl
  · rfl

theorem windowCreated_mem_effects (start_block_id : BlockHashAndNumber)
    (max_blocks_count : Nat) (events : List RunEvent)
    (hmax : forky_max_blocks_count ≤ max_blocks_count) :
    Effect.windowCreated start_block_id.number
        (align_block_num_to_slice_start (u64add start_block_id.number forky_max_blocks_count))
      ∈ (DownloaderForky.run start_block_id max_blocks_count events).snd := by
  unfold DownloaderForky.run
  rw [if_neg (Nat.not_lt.mpr hmax)]
  exact List.mem_cons_self _ _

/-! ### Claim theorems -/

/-- C2: a call to `DownloaderForky::run` with `max_blocks_count` strictly below
the phase minimum of 99,000 is a no-op: it returns `Ok` with `loaded_count = 0`
and `final_block_num` equal to the starting checkpoint's block number. -/
theorem c2_noop_below_threshold (start_block_id : BlockHashAndNumber)
    (max_blocks_count : Nat) (events : List RunEvent)
    (h : max_blocks_count < forky_max_blocks_count) :
    DownloaderForky.run start_block_id max_blocks_count events =
      (Except.ok { loaded_count := 0, final_block_num := start_block_id.number }, []) := by
  unfold DownloaderForky.run
  rw [if_pos h]

/-- C2 witness: a concrete no-op run with checkpoint number 999 and a request
of 98,999 blocks. -/
theorem c2_witness :
    DownloaderForky.run { number := 999, hash := 0 } 98999 [] =
      (Except.ok { loaded_count := 0, final_block_num := 999 }, []) :=
  c2_noop_below_threshold { number := 999, hash := 0 } 98999 [] (by decide)

/-- C10: a run taking the no-op branch produces no side effects at all: no
window construction, no UI view registration, no stage construction, no
notification, no logging — the effect list is empty. -/
theorem c10_noop_branch_touches_nothing (start_block_id : BlockHashAndNumber)
    (max_blocks_count : Nat) (events : List RunEvent)
    (h : max_blocks_count < forky_max_blocks_count) :
    (DownloaderForky.run start_block_id max_blocks_count events).snd = [] := by
  unfold DownloaderForky.run
  rw [if_pos h]

/-- C10 witness: a concrete no-op run leaves the effect list empty even when
the event stream would have carried work. -/
theorem c10_witness :
    (DownloaderForky.run { number := 7, hash := 1 } 42 [c5Event]).snd = [] :=
  c10_noop_branch_touches_nothing { number := 7, hash := 1 } 42 [c5Event] (by decide)

/-- C1 counterexample: the claim says a run whose first stage event is an error
returns a propagated error rather than a success report; in the code the error
is only logged, the loop breaks, and the function returns `Ok` with a report.
Concretely, with checkpoint (999, 0), `max_blocks_count = 99000` and a single
erroring save-stage event, the run returns `Ok { loaded_count := 0,
final_block_num := 999 }` — a success report. -/
theorem c1_counterexample :
    (DownloaderForky.run { number := 999, hash := 0 } 99000 [c1Event]).fst =
      Except.ok { loaded_count := 0, final_block_num := 999 } := by
  rw [run_fst_eq]
  rfl

/-- C1 (amended): when some stage's per-iteration outcome is an error, the run
stops immediately at that event (no further events are consumed, no further
watcher notifications happen), logs which stage failed, and returns `Ok` with
the partial report; `DownloaderForky::run` never returns an `Err`. -/
theorem c1_stage_error_stops_logs_returns_ok
    (w : HeaderSlices) (e : RunEvent) (rest : List RunEvent)
    (he : e.resultIsErr = true) :
    runLoop w (e :: rest) =
      { window := w.applyOps e.ops, reason := StopReason.stageError e.key,
        consumed := 1, notifies := 0 } ∧
    (∀ (start_block_id : BlockHashAndNumber) (max_blocks_count : Nat),
      forky_max_blocks_count ≤ max_blocks_count →
      Effect.loggedStageError e.key ∈
        (DownloaderForky.run start_block_id max_blocks_count (e :: rest)).snd) ∧
    (∀ (start_block_id : BlockHashAndNumber) (max_blocks_count : Nat)
        (events : List RunEvent),
      (DownloaderForky.run start_block_id max_blocks_count events).fst.isOk = true) := by
  refine ⟨runLoop_stage_error_eq w e rest he, ?_, ?_⟩
  · intro start_block_id max_blocks_count hmax
    unfold DownloaderForky.run
    rw [if_neg (Nat.not_lt.mpr hmax)]
    simp only [runLoop_stage_error_eq _ e rest he]
    simp [stageNames]
  · intro start_block_id max_blocks_count events
    exact run_always_ok start_block_id max_blocks_count events

/-- C1 witness: the amended claim at a concrete window and a single erroring
save-stage event. -/
theorem c1_witness :
    runLoop (HeaderSlices.new mem_limit 999 99968) [c1Event] =
      { window := HeaderSlices.new mem_limit 999 99968,
        reason := StopReason.stageError "save_stage", consumed := 1, notifies := 0 } :=
  (c1_stage_error_stops_logs_returns_ok (HeaderSlices.new mem_limit 999 99968)
    c1Event [] rfl).1

/-- C4: when the Fetch-Receive liveness predicate `can_proceed` is false after
a stage event (whose own outcome was not an error), the run stops early and
gracefully at that event and returns `Ok` with the partial report built from
the window state at the stop — not an error. -/
theorem c4_cannot_proceed_stops_gracefully
    (w : HeaderSlices) (e : RunEvent) (rest : List RunEvent)
    (he : e.resultIsErr = false) (hc : e.canProceed = false) :
    runLoop w (e :: rest) =
      { window := w.applyOps e.ops, reason := StopReason.cannotProceed,
        consumed := 1, notifies := 0 } ∧
    (∀ (start_block_id : BlockHashAndNumber) (max_blocks_count : Nat),
      forky_max_blocks_count ≤ max_blocks_count →
      (DownloaderForky.run start_block_id max_blocks_count (e :: rest)).fst =
        Except.ok (mkReport
          ((HeaderSlices.new mem_limit start_block_id.number
            (align_block_num_to_slice_start
              (u64add start_block_id.number forky_max_blocks_count))).applyOps e.ops)
          start_block_id.number)) := by
  refine ⟨runLoop_cannot_proceed_eq w e rest he hc, ?_⟩
  intro start_block_id max_blocks_count hmax
  rw [run_fst_eq, if_neg (Nat.not_lt.mpr hmax),
    runLoop_cannot_proceed_eq _ e rest he hc]

/-- C4 witness: a concrete run with checkpoint (999, 0) whose single event
flips `can_proceed` to false; the run returns `Ok` with the report of the
untouched window. -/
theorem c4_witness :
    (DownloaderForky.run { number := 999, hash := 0 } 99000 [c4Event]).fst =
      Except.ok (mkReport (HeaderSlices.new mem_limit 999 99968) 999) :=
  (c4_cannot_proceed_stops_gracefully (HeaderSlices.new mem_limit 999 99968)
    c4Event [] rfl rfl).2 { number := 999, hash := 0 } 99000 (by decide)

/-- C5: whenever `is_empty_at_final_position()` is true after a stage event's
window mutations are applied, the event loop stops at that event: the rest of
the event stream is never processed, exactly one event was consumed from that
point, no watcher notification happens from that point, and the final window
is the one the stop condition was checked on. -/
theorem c5_empty_at_final_position_stops
    (w : HeaderSlices) (e : RunEvent) (rest : List RunEvent)
    (hemp : (w.applyOps e.ops).is_empty_at_final_position = true) :
    runLoop w (e :: rest) = runLoop w [e] ∧
    (runLoop w (e :: rest)).consumed = 1 ∧
    (runLoop w (e :: rest)).notifies = 0 ∧
    (runLoop w (e :: rest)).window = w.applyOps e.ops := by
  cases he : e.resultIsErr with
  | true =>
    rw [runLoop_stage_error_eq w e rest he, runLoop_stage_error_eq w e [] he]
    exact ⟨rfl, rfl, rfl, rfl⟩
  | false =>
    cases hc : e.canProceed with
    | false =>
      rw [runLoop_cannot_proceed_eq w e rest he hc, runLoop_cannot_proceed_eq w e [] he hc]
      exact ⟨rfl, rfl, rfl, rfl⟩
    | true =>
      rw [runLoop_empty_stop_eq w e rest he hc hemp, runLoop_empty_stop_eq w e [] he hc hemp]
      exact ⟨rfl, rfl, rfl, rfl⟩

/-- C5 witness: a concrete one-slice window whose final-position slice is
`Empty`; the loop stops after the first event and ignores the second. -/
theorem c5_witness :
    runLoop c5Window [c5Event, c5Event] = runLoop c5Window [c5Event] ∧
    (runLoop c5Window [c5Event, c5Event]).consumed = 1 ∧
    (runLoop c5Window [c5Event, c5Event]).notifies = 0 ∧
    (runLoop c5Window [c5Event, c5Event]).window = c5Window :=
  c5_empty_at_final_position_stops c5Window c5Event [c5Event] (by decide)

/-- C3: every run that proceeds past the no-op check and stops normally
returns a report whose `final_block_num` is the window's final low boundary
and whose `loaded_count` is the difference between that final low boundary and
the initial low boundary (the starting checkpoint number). The `u64`
subtraction in the code is the true difference because the low boundary never
goes below the start and never exceeds the window's (representable) upper
boundary. -/
theorem c3_report_is_boundary_difference (start_block_id : BlockHashAndNumber)
    (max_blocks_count : Nat) (events : List RunEvent)
    (hmax : forky_max_blocks_count ≤ max_blocks_count)
    (hrange : start_block_id.number + forky_max_blocks_count < U64_MOD) :
    (DownloaderForky.run start_block_id max_blocks_count events).fst =
      Except.ok
        { loaded_count :=
            (runLoop (HeaderSlices.new mem_limit start_block_id.number
              (align_block_num_to_slice_start
                (u64add start_block_id.number forky_max_blocks_count)))
              events).window.min_block_num - start_block_id.number
          final_block_num :=
            (runLoop (HeaderSlices.new mem_limit start_block_id.number
              (align_block_num_to_slice_start
                (u64add start_block_id.number forky_max_blocks_count)))
              events).window.min_block_num } := by
  rw [run_fst_eq, if_neg (Nat.not_lt.mpr hmax)]
  set start := start_block_id.number with hstart
  set fin := align_block_num_to_slice_start (u64add start forky_max_blocks_count) with hfin
  set w0 := HeaderSlices.new mem_limit start fin with hw0
  set lw := (runLoop w0 events).window with hlw
  have hlow0 : w0.lowBlockNum = start := rfl
  have hge : start ≤ lw.lowBlockNum := by
    have h := runLoop_lowBlockNum_ge w0 events
    rw [hlow0] at h
    exact h
  have hnowrap : u64add start forky_max_blocks_count = start + forky_max_blocks_count := by
    rw [u64add]
    exact Nat.mod_eq_of_lt hrange
  have hfin_le : fin ≤ start + forky_max_blocks_count := by
    rw [hfin, align_block_num_to_slice_start, hnowrap]
    exact Nat.div_mul_le_self _ _
  have hw0fin : w0.final_block_num ≤ start + forky_max_blocks_count := by
    have hlen : w0.statuses.length = (fin - start) / HEADER_SLICE_SIZE := by
      rw [hw0, HeaderSlices.new]
      exact List.length_replicate _ _
    have h1 : HEADER_SLICE_SIZE * ((fin - start) / HEADER_SLICE_SIZE) ≤ fin - start := by
      rw [Nat.mul_comm]
      exact Nat.div_mul_le_self _ _
    have h2 : w0.final_block_num
        = start + HEADER_SLICE_SIZE * ((fin - start) / HEADER_SLICE_SIZE) := by
      rw [HeaderSlices.final_block_num, hlow0, hlen]
      rfl
    omega
  have hub : lw.lowBlockNum < U64_MOD := by
    have h1 : lw.lowBlockNum ≤ lw.final_block_num := lowBlockNum_le_final lw
    have h2 : lw.final_block_num = w0.final_block_num := by
      rw [hlw]
      exact runLoop_final_block_num w0 events
    omega
  rw [mkReport, HeaderSlices.min_block_num, u64sub_eq_sub _ _ hge hub]

/-- C3 witness: a concrete run (checkpoint 999, request 99,000 blocks, empty
event stream); the report is the boundary difference, here zero. -/
theorem c3_witness :
    (DownloaderForky.run { number := 999, hash := 0 } 99000 []).fst =
      Except.ok
        { loaded_count :=
            (runLoop (HeaderSlices.new mem_limit 999 99968) []).window.min_block_num - 999
          final_block_num :=
            (runLoop (HeaderSlices.new mem_limit 999 99968) []).window.min_block_num } :=
  c3_report_is_boundary_difference { number := 999, hash := 0 } 99000 []
    (by decide) (by decide)

/-- C6 counterexample: the §8 happy-path scenario ends with the window's low
boundary at 1192 after both slices are saved; the code's report computation at
that final state with checkpoint number 999 yields `loaded_count = 1192 - 999
= 193`, not the 192 the claim expects. -/
theorem c6_counterexample :
    (mkReport scenarioFinalWindow 999).loaded_count ≠ 192 := by decide

/-- C6 (amended): with checkpoint (999, H0) and slice size 64, the span
`[1000, 1192)` is three slices, not two; when all of them are verified and the
Save Stage advances past them, the low boundary reaches 1192 and the run's
report is `{loaded_count: 193, final_block_num: 1192}` — `loaded_count` is
measured from the checkpoint number 999, at which the window's low boundary
starts. -/
theorem c6_amended_scenario_report :
    (scenarioWindow.applyOp (WindowOp.mark_saved_and_advance 3)).lowBlockNum = 1192 ∧
    mkReport (scenarioWindow.applyOp (WindowOp.mark_saved_and_advance 3)) 999 =
      { loaded_count := 193, final_block_num := 1192 } := by decide

/-- C7: every run proceeding past the no-op check constructs the header window
with an upper boundary equal to `align_block_num_to_slice_start(start_block_num
+ 99000)`, which is a multiple of `HEADER_SLICE_SIZE`, so the window's upper
edge is always slice-aligned. -/
theorem c7_window_upper_edge_slice_aligned (start_block_id : BlockHashAndNumber)
    (max_blocks_count : Nat) (events : List RunEvent)
    (hmax : forky_max_blocks_count ≤ max_blocks_count) :
    Effect.windowCreated start_block_id.number
        (align_block_num_to_slice_start (u64add start_block_id.number forky_max_blocks_count))
      ∈ (DownloaderForky.run start_block_id max_blocks_count events).snd ∧
    align_block_num_to_slice_start (u64add start_block_id.number forky_max_blocks_count)
      % HEADER_SLICE_SIZE = 0 := by
  refine ⟨windowCreated_mem_effects start_block_id max_blocks_count events hmax, ?_⟩
  rw [align_block_num_to_slice_start]
  exact Nat.mul_mod_left _ _

/-- C7 witness: a concrete run with checkpoint 999 creates the window with
upper boundary 99968 = `align_block_num_to_slice_start 99999`, a multiple of
the slice size. -/
theorem c7_witness :
    Effect.windowCreated 999 99968
      ∈ (DownloaderForky.run { number := 999, hash := 0 } 99000 []).snd ∧
    (99968 : Nat) % HEADER_SLICE_SIZE = 0 :=
  c7_window_upper_edge_slice_aligned { number := 999, hash := 0 } 99000 [] (by decide)

/-- C8: the window's low boundary is non-decreasing — over any batch of window
operations and over the whole event loop — and a single operation either
leaves it unchanged or is the Save Stage's advance past a contiguously
`Verified` leading run of slices (which become `Saved` and are dropped); at
report time the reported boundary is at least the starting checkpoint number,
so `loaded_count` is a well-defined non-negative count. -/
theorem c8_low_boundary_monotone :
    (∀ (w : HeaderSlices) (ops : List WindowOp),
      w.lowBlockNum ≤ (w.applyOps ops).lowBlockNum) ∧
    (∀ (w : HeaderSlices) (op : WindowOp),
      (w.applyOp op).lowBlockNum = w.lowBlockNum ∨
      ∃ k, op = WindowOp.mark_saved_and_advance k ∧ k ≤ w.statuses.length ∧
        (w.statuses.take k).all (· == SliceStatus.verified) = true ∧
        (w.applyOp op).lowBlockNum = w.lowBlockNum + k * w.sliceSize) ∧
    (∀ (w : HeaderSlices) (events : List RunEvent),
      w.lowBlockNum ≤ (runLoop w events).window.lowBlockNum) ∧
    (∀ (start_block_id : BlockHashAndNumber) (max_blocks_count : Nat)
        (events : List RunEvent) (r : DownloaderForkyReport),
      (DownloaderForky.run start_block_id max_blocks_count events).fst = Except.ok r →
      start_block_id.number ≤ r.final_block_num) := by
  refine ⟨applyOps_lowBlockNum_ge, ?_, runLoop_lowBlockNum_ge, ?_⟩
  · intro w op
    cases op with
    | try_claim_for_request i => exact Or.inl (setAt_lowBlockNum w i _ _)
    | mark_fetched i => exact Or.inl (setAt_lowBlockNum w i _ _)
    | mark_verified i => exact Or.inl (setAt_lowBlockNum w i _ _)
    | mark_invalid i => exact Or.inl (setAt_lowBlockNum w i _ _)
    | reset_to_empty i =>
      exact Or.inl ((setAt_lowBlockNum _ i _ _).trans (setAt_lowBlockNum w i _ _))
    | mark_saved_and_advance k =>
      rw [HeaderSlices.applyOp]
      split
      · rename_i h
        exact Or.inr ⟨k, rfl, h.1, h.2, rfl⟩
      · exact Or.inl rfl
  · intro start_block_id max_blocks_count events r hr
    rw [run_fst_eq] at hr
    split at hr
    · injection hr with hr
      rw [← hr]
    · injection hr with hr
      rw [← hr]
      exact runLoop_lowBlockNum_ge
        (HeaderSlices.new mem_limit start_block_id.number
          (align_block_num_to_slice_start
            (u64add start_block_id.number forky_max_blocks_count))) events

/-- C8 witness: the report-time bound applied to a concrete no-op run with
checkpoint number 999. -/
theorem c8_witness : (999 : Nat) ≤ 999 :=
  c8_low_boundary_monotone.2.2.2 { number := 999, hash := 0 } 0 []
    { loaded_count := 0, final_block_num := 999 } rfl

/-- C9: for runs past the no-op check the requested `max_blocks_count` is
irrelevant: two runs differing only in `max_blocks_count` (both at least
99,000) are identical in result and effects, and the window handed to the
stages always spans from the checkpoint number to
`align_block_num_to_slice_start(start_block_num + 99000)`. -/
theorem c9_window_independent_of_max (start_block_id : BlockHashAndNumber)
    (m1 m2 : Nat) (events : List RunEvent)
    (h1 : forky_max_blocks_count ≤ m1) (h2 : forky_max_blocks_count ≤ m2) :
    DownloaderForky.run start_block_id m1 events =
      DownloaderForky.run start_block_id m2 events ∧
    Effect.windowCreated start_block_id.number
        (align_block_num_to_slice_start (u64add start_block_id.number forky_max_blocks_count))
      ∈ (DownloaderForky.run start_block_id m1 events).snd := by
  refine ⟨?_, windowCreated_mem_effects start_block_id m1 events h1⟩
  unfold DownloaderForky.run
  rw [if_neg (Nat.not_lt.mpr h1), if_neg (Nat.not_lt.mpr h2)]

/-- C9 witness: runs requesting 99,000 and 1,000,000 blocks from checkpoint
999 coincide, and both build the window `[999, 99968)`. -/
theorem c9_witness :
    DownloaderForky.run { number := 999, hash := 0 } 99000 [] =
      DownloaderForky.run { number := 999, hash := 0 } 1000000 [] ∧
    Effect.windowCreated 999 99968
      ∈ (DownloaderForky.run { number := 999, hash := 0 } 99000 []).snd :=
  c9_window_independent_of_max { number := 999, hash := 0 } 99000 1000000 []
    (by decide) (by decide)

end Akula
